import Mathlib

/-!
Shallow embedding of the deterministic content-analysis and text-overlay
engine of the repository (src/lib/text-overlay-types.ts,
src/lib/ai-text-overlay-generator.ts and the social-media agent module).

Conventions of the embedding:
* JavaScript numbers are modelled as rationals (`ℚ`); none of the verified
  properties depends on floating-point rounding.
* JavaScript strings that are scanned character-by-character (the classifier
  input) are modelled as `List Char`; other strings are Lean `String`s.
* Optional / possibly-`undefined` fields are modelled with `Option`.
* `String.toLowerCase` is modelled as ASCII lowercasing (all substring
  patterns the code searches for are ASCII or the literal character `©`,
  which is a fixed point of lowercasing).
* The module-level mutable preset object `PRESET_TEXT_STYLES` is modelled by
  explicit state passing: stateful functions take and return a
  `PresetTextStyles` value, and the pure entry points start from the
  initial presets.
* `Math.random()`-driven template selection, `Date.now()` and the
  identifier suffix are modelled as explicit oracle inputs (`RandChoices`).
-/

-- ============================================================
-- Basic string helpers (models of JS String.includes / regex)
-- ============================================================

/-- Model of `String.toLowerCase` restricted to ASCII letters. -/
def toLowerChar (c : Char) : Char :=
  if 'A' ≤ c ∧ c ≤ 'Z' then Char.ofNat (c.toNat + 32) else c

/-- `startsWithList s pat` is true when `pat` is a prefix of `s`. -/
def startsWithList : List Char → List Char → Bool
  | _, [] => true
  | [], _ :: _ => false
  | a :: as, b :: bs => a == b && startsWithList as bs

/-- Model of JavaScript `s.includes(pat)`: `pat` occurs as a contiguous
substring of `s`. -/
def includesSub (s pat : List Char) : Bool :=
  match s with
  | [] => startsWithList [] pat
  | _ :: cs => startsWithList s pat || includesSub cs pat

/-- Characters matched by the regex class `[A-Z]`. -/
def isUpperAZ (c : Char) : Bool := 'A' ≤ c && c ≤ 'Z'

/-- Model of the regex test `/^[A-Z][^.!?]*$/.test(text)`. -/
def titlePattern (s : List Char) : Bool :=
  match s with
  | [] => false
  | c :: cs => isUpperAZ c && cs.all (fun d => d ≠ '.' && d ≠ '!' && d ≠ '?')

/-- Model of the regex test `/\d+%|\d+\.\d+%|\$\d+|\d+ million|\d+ billion/`:
some digit is immediately followed by `%`, or by `.` digits `%`, or a `$` is
immediately followed by a digit, or digits are followed by ` million` /
` billion`.  The exact truth value of this test never matters for the
verified claims (it sits strictly after the watermark branch); it is kept
as a faithful executable approximation of the alternation. -/
def isDigitChar (c : Char) : Bool := '0' ≤ c && c ≤ '9'

/-- One alternative of the statistic regex starting at the head of the list. -/
def statisticAt : List Char → Bool
  | '$' :: d :: _ => isDigitChar d
  | c :: rest =>
    if isDigitChar c then
      -- after a digit run: '%', or '.' digits '%', or ' million' / ' billion'
      let rest' := rest.dropWhile isDigitChar
      match rest' with
      | '%' :: _ => true
      | '.' :: d :: tail =>
        isDigitChar d && ((tail.dropWhile isDigitChar).headD ' ' == '%')
      | ' ' :: tail =>
        startsWithList tail "million".data || startsWithList tail "billion".data
      | _ => false
    else false
  | [] => false

/-- Model of the statistic regex test: some suffix matches an alternative. -/
def statisticTest : List Char → Bool
  | [] => false
  | c :: cs => statisticAt (c :: cs) || statisticTest cs

-- ============================================================
-- Content classifier enumerations (ai-text-overlay-generator.ts)
-- ============================================================

/-- The `ContentType` union of the source. -/
inductive ContentType where
  | title | subtitle | caption | watermark | callout
  | quote | statistic | instruction | disclaimer | credit
  deriving DecidableEq, Repr

/-- The tone union of `ContentAnalysis`. -/
inductive Tone where
  | formal | casual | urgent | playful | professional
  deriving DecidableEq, Repr

/-- The importance union of `ContentAnalysis`. -/
inductive Importance where
  | low | medium | high | critical
  deriving DecidableEq, Repr

/-- The audience union of `ContentAnalysis`. -/
inductive Audience where
  | general | professional | youth | elderly
  deriving DecidableEq, Repr

/-- Text length buckets of `ContentAnalysis`. -/
inductive TextLength where
  | short | medium | long
  deriving DecidableEq, Repr

/-- Brand guidelines of `ContentAnalysis` (never populated on the verified
paths, kept for structural fidelity). -/
structure BrandGuidelines where
  primaryColor : Option String := none
  secondaryColor : Option String := none
  fontFamily : Option String := none
  logo : Option String := none
  deriving DecidableEq, Repr

/-- The classifier output `ContentAnalysis` of the source.  `contentType`
and `importance` are `Option`s because `generateTextOverlay` overwrites
them via `Object.assign` with possibly-`undefined` custom options. -/
structure ContentAnalysis where
  contentType : Option ContentType
  textLength : TextLength
  tone : Tone
  importanceLevel : Option Importance
  audience : Audience
  context : String
  colorScheme : String
  brandGuidelines : Option BrandGuidelines := none
  deriving DecidableEq, Repr

-- ============================================================
-- Classifier functions (ai-text-overlay-generator.ts)
-- ============================================================

/-- `determineContentType` of the source: an ordered first-match chain.
Note the source checks the title and subtitle patterns BEFORE the
watermark / callout / quote / ... substring checks. -/
def determineContentType (text : List Char) : ContentType :=
  let lowerText := text.map toLowerChar
  if text.length < 50 && titlePattern text then .title
  else if text.length < 100 && titlePattern text then .subtitle
  else if includesSub lowerText "©".data || includesSub lowerText "copyright".data
      || includesSub lowerText "watermark".data then .watermark
  else if includesSub lowerText "!".data || includesSub lowerText "urgent".data
      || includesSub lowerText "important".data then .callout
  else if includesSub text "\"".data || includesSub text "“".data
      || includesSub lowerText "said".data || includesSub lowerText "quote".data then .quote
  else if statisticTest text then .statistic
  else if includesSub lowerText "click".data || includesSub lowerText "tap".data
      || includesSub lowerText "press".data || includesSub lowerText "enter".data then .instruction
  else if includesSub lowerText "disclaimer".data || includesSub lowerText "terms".data
      || includesSub lowerText "conditions".data then .disclaimer
  else if includesSub lowerText "photo by".data || includesSub lowerText "credit".data
      || includesSub lowerText "courtesy".data then .credit
  else .caption

/-- `analyzeTone` of the source. -/
def analyzeTone (text : List Char) : Tone :=
  let lowerText := text.map toLowerChar
  if includesSub lowerText "urgent".data || includesSub lowerText "emergency".data
      || includesSub lowerText "alert".data then .urgent
  else if includesSub lowerText "fun".data || includesSub lowerText "awesome".data
      || includesSub lowerText "amazing".data || includesSub lowerText "wow".data then .playful
  else if includesSub lowerText "professional".data || includesSub lowerText "business".data
      || includesSub lowerText "corporate".data then .professional
  else if includesSub lowerText "hey".data || includesSub lowerText "cool".data
      || includesSub lowerText "nice".data then .casual
  else .formal

/-- `determineImportance` of the source. -/
def determineImportance (text : List Char) (contentType : ContentType) : Importance :=
  let lowerText := text.map toLowerChar
  if includesSub lowerText "urgent".data || includesSub lowerText "emergency".data
      || includesSub lowerText "critical".data then .critical
  else if includesSub lowerText "important".data || includesSub lowerText "warning".data
      || includesSub lowerText "alert".data then .high
  else match contentType with
    | .title | .callout => .high
    | .watermark | .disclaimer => .low
    | _ => .medium

/-- `analyzeTextContent` of the source. -/
def analyzeTextContent (text : List Char) : ContentAnalysis :=
  let contentType := determineContentType text
  let textLength : TextLength :=
    if text.length < 20 then .short else if text.length < 100 then .medium else .long
  let tone := analyzeTone text
  let imp := determineImportance text contentType
  { contentType := some contentType
    textLength := textLength
    tone := tone
    importanceLevel := some imp
    audience := .general
    context := "image"
    colorScheme := "light" }

-- ============================================================
-- Placement / style model (text-overlay-types.ts)
-- ============================================================

/-- The nine preset positions of `TextPosition`. -/
inductive TextPosition where
  | topLeft | topCenter | topRight
  | centerLeft | center | centerRight
  | bottomLeft | bottomCenter | bottomRight
  deriving DecidableEq, Repr

/-- The nine Cloudinary gravity tokens. -/
inductive CloudinaryGravity where
  | northWest | north | northEast
  | west | center | east
  | southWest | south | southEast
  deriving DecidableEq, Repr

/-- A pixel offset (`offset` sub-object of `TextPlacement`); both
coordinates are optional in the source literals. -/
structure PixelOffset where
  x : Option ℚ := none
  y : Option ℚ := none
  deriving DecidableEq, Repr

/-- `TextPlacement` of the source.  Every field is optional. -/
structure TextPlacement where
  x : Option ℚ := none
  y : Option ℚ := none
  position : Option TextPosition := none
  gravity : Option CloudinaryGravity := none
  offset : Option PixelOffset := none
  startTime : Option ℚ := none
  endTime : Option ℚ := none
  deriving DecidableEq, Repr

/-- Text stroke sub-object. -/
structure TextStroke where
  color : String
  width : ℚ
  deriving DecidableEq, Repr

/-- Text shadow sub-object. -/
structure TextShadow where
  color : String
  blur : ℚ
  offsetX : ℚ
  offsetY : ℚ
  deriving DecidableEq, Repr

/-- `TextStyle` of the source (the fields read or written by the verified
code paths; font weight and the string unions are modelled as strings). -/
structure TextStyle where
  fontFamily : Option String := none
  fontSize : Option ℚ := none
  color : Option String := none
  backgroundColor : Option String := none
  opacity : Option ℚ := none
  fontWeight : Option String := none
  stroke : Option TextStroke := none
  shadow : Option TextShadow := none
  deriving DecidableEq, Repr

/-- The mutable module-level object `PRESET_TEXT_STYLES`, modelled as an
explicit state record (the source mutates its members through aliases). -/
structure PresetTextStyles where
  title : TextStyle
  subtitle : TextStyle
  body : TextStyle
  caption : TextStyle
  watermark : TextStyle
  callout : TextStyle
  deriving DecidableEq, Repr

/-- Initial value of `PRESET_TEXT_STYLES` as written in the source. -/
def PRESET_TEXT_STYLES : PresetTextStyles :=
  { title :=
      { fontFamily := some "Arial", fontSize := some 48, color := some "#ffffff"
        fontWeight := some "bold", stroke := some ⟨"#000000", 3⟩
        shadow := some ⟨"#000000", 4, 2, 2⟩ }
    subtitle :=
      { fontFamily := some "Arial", fontSize := some 32, color := some "#ffffff"
        fontWeight := some "600", stroke := some ⟨"#000000", 2⟩ }
    body :=
      { fontFamily := some "Arial", fontSize := some 24, color := some "#ffffff"
        fontWeight := some "normal" }
    caption :=
      { fontFamily := some "Arial", fontSize := some 18, color := some "#cccccc"
        fontWeight := some "normal" }
    watermark :=
      { fontFamily := some "Arial", fontSize := some 20, color := some "#ffffff"
        fontWeight := some "normal", opacity := some (1/2) }
    callout :=
      { fontFamily := some "Arial", fontSize := some 28, color := some "#ff0000"
        fontWeight := some "bold", backgroundColor := some "#ffff00"
        stroke := some ⟨"#000000", 1⟩ } }

/-- Result record of the two validators. -/
structure ValidationResult where
  isValid : Bool
  errors : List String
  deriving DecidableEq, Repr

/-- `validateTextPlacement` of the source: collects error strings in
source order and reports validity as `errors.length === 0`. -/
def validateTextPlacement (placement : TextPlacement) : ValidationResult :=
  let errors : List String :=
    (if placement.position.isSome && placement.gravity.isSome then
      ["Cannot use both position and gravity - use one or the other"] else [])
    ++ (match placement.x with
        | some x => if x < 0 ∨ x > 100 then ["X coordinate must be between 0 and 100"] else []
        | none => [])
    ++ (match placement.y with
        | some y => if y < 0 ∨ y > 100 then ["Y coordinate must be between 0 and 100"] else []
        | none => [])
    ++ (match placement.startTime with
        | some s => if s < 0 then ["Start time must be non-negative"] else []
        | none => [])
    ++ (match placement.endTime with
        | some e => if e < 0 then ["End time must be non-negative"] else []
        | none => [])
    ++ (match placement.startTime, placement.endTime with
        | some s, some e => if s ≥ e then ["Start time must be less than end time"] else []
        | _, _ => [])
  { isValid := errors.length == 0, errors := errors }

/-- `validateTextStyle` of the source. -/
def validateTextStyle (style : TextStyle) : ValidationResult :=
  let errors : List String :=
    (match style.fontSize with
     | some fs => if fs < 8 ∨ fs > 200 then ["Font size must be between 8 and 200 pixels"] else []
     | none => [])
    ++ (match style.opacity with
        | some o => if o < 0 ∨ o > 1 then ["Opacity must be between 0 and 1"] else []
        | none => [])
    ++ (match style.stroke with
        | some st => if st.width < 0 ∨ st.width > 20 then
            ["Stroke width must be between 0 and 20 pixels"] else []
        | none => [])
    ++ (match style.shadow with
        | some sh => if sh.blur < 0 ∨ sh.blur > 50 then
            ["Shadow blur must be between 0 and 50 pixels"] else []
        | none => [])
  { isValid := errors.length == 0, errors := errors }

/-- `createPlacementFromPosition` of the source. -/
def createPlacementFromPosition (position : TextPosition)
    (offset : Option PixelOffset := none) : TextPlacement :=
  { position := some position, offset := offset }

/-- `createTimedPlacement` of the source. -/
def createTimedPlacement (position : TextPosition) (startTime endTime : ℚ)
    (offset : Option PixelOffset := none) : TextPlacement :=
  { position := some position, startTime := some startTime
    endTime := some endTime, offset := offset }

-- ============================================================
-- Media context (ai-text-overlay-generator.ts)
-- ============================================================

/-- Aspect ratio classification of `MediaContext`. -/
inductive AspectRatio where
  | square | portrait | landscape | ultrawide
  deriving DecidableEq, Repr

/-- Background brightness of `MediaContext`. -/
inductive Brightness where
  | dark | medium | bright
  deriving DecidableEq, Repr

/-- Media dimensions. -/
structure Dimensions where
  width : ℚ
  height : ℚ
  deriving DecidableEq, Repr

/-- `MediaContext` of the source.  `type` is a string because the
social-media module passes its own kind strings (`"meme"`, `"graphic"`)
through this field at runtime. -/
structure MediaContext where
  type : String
  dimensions : Dimensions
  aspectRatio : AspectRatio
  backgroundComplexity : String
  dominantColors : List String
  brightness : Brightness
  duration : Option ℚ := none
  motionLevel : Option String := none
  deriving DecidableEq, Repr

/-- `analyzeMediaContext` of the source. -/
def analyzeMediaContext (dimensions : Dimensions) (type : String := "image")
    (duration : Option ℚ := none) : MediaContext :=
  let aspectRatio := dimensions.width / dimensions.height
  let aspectRatioType : AspectRatio :=
    if aspectRatio > 2 then .ultrawide
    else if aspectRatio > 12/10 then .landscape
    else if aspectRatio < 8/10 then .portrait
    else .square
  { type := type
    dimensions := dimensions
    aspectRatio := aspectRatioType
    backgroundComplexity := "moderate"
    dominantColors := ["#ffffff"]
    brightness := .medium
    duration := duration
    motionLevel := if type = "video" then some "medium" else none }

-- ============================================================
-- Placement & style synthesizer (ai-text-overlay-generator.ts)
-- ============================================================

/-- `generateOptimalPlacement` of the source. -/
def generateOptimalPlacement (contentAnalysis : ContentAnalysis)
    (mediaContext : MediaContext) : TextPlacement :=
  -- Determine base position based on content type (a `switch` with default)
  let basePosition : TextPosition :=
    match contentAnalysis.contentType with
    | some .title => .topCenter
    | some .subtitle => if mediaContext.aspectRatio = .portrait then .center else .topCenter
    | some .caption => .bottomCenter
    | some .watermark => .bottomRight
    | some .callout => .center
    | some .quote => .center
    | some .statistic => .center
    | some .instruction => .bottomCenter
    | some .disclaimer => .bottomLeft
    | some .credit => .bottomRight
    | none => .bottomCenter
  -- Adjust for importance
  let basePosition :=
    if contentAnalysis.importanceLevel = some .critical then .center else basePosition
  -- Adjust for aspect ratio
  let basePosition :=
    if mediaContext.aspectRatio = .ultrawide ∧ basePosition = .topCenter then .topLeft
    else basePosition
  let placement := createPlacementFromPosition basePosition
  -- Add timing for videos (`mediaContext.duration` is tested for truthiness)
  match mediaContext.duration with
  | some d =>
    if mediaContext.type = "video" ∧ d ≠ 0 then
      createTimedPlacement basePosition 0 (min d 5)
    else placement
  | none => placement

/-- The preset chosen by the `switch (contentType)` at the start of
`generateOptimalStyle` (an alias into the mutable preset object). -/
def stylePresetFor (ps : PresetTextStyles) (contentType : Option ContentType) : TextStyle :=
  match contentType with
  | some .title => ps.title
  | some .subtitle => ps.subtitle
  | some .watermark => ps.watermark
  | some .callout => ps.callout
  | _ => ps.body

/-- Write-back of the mutated alias into the preset object (the source
mutates the selected preset in place). -/
def writePresetFor (ps : PresetTextStyles) (contentType : Option ContentType)
    (s : TextStyle) : PresetTextStyles :=
  match contentType with
  | some .title => { ps with title := s }
  | some .subtitle => { ps with subtitle := s }
  | some .watermark => { ps with watermark := s }
  | some .callout => { ps with callout := s }
  | _ => { ps with body := s }

/-- Font-size scaling block of `generateOptimalStyle` (`baseStyle.fontSize`
is tested for truthiness, hence the `fs ≠ 0` guard). -/
def styleScaleFont (textLength : TextLength) (s : TextStyle) : TextStyle :=
  if textLength = .short then
    match s.fontSize with
    | some fs => if fs ≠ 0 then { s with fontSize := some (min (fs * (12/10)) 72) } else s
    | none => s
  else if textLength = .long then
    match s.fontSize with
    | some fs => if fs ≠ 0 then { s with fontSize := some (max (fs * (8/10)) 16) } else s
    | none => s
  else s

/-- Brightness block of `generateOptimalStyle`. -/
def styleBrightness (brightness : Brightness) (s : TextStyle) : TextStyle :=
  if brightness = .dark then { s with color := some "#ffffff" }
  else if brightness = .bright then { s with color := some "#000000" }
  else s

/-- Importance block of `generateOptimalStyle`. -/
def styleImportance (imp : Option Importance) (s : TextStyle) : TextStyle :=
  if imp = some .critical then
    { s with fontWeight := some "bold", color := some "#ff0000"
             stroke := some ⟨"#ffffff", 3⟩ }
  else if imp = some .high then
    { s with fontWeight := some "bold", stroke := some ⟨"#000000", 2⟩ }
  else s

/-- Tone block of `generateOptimalStyle`. -/
def styleTone (tone : Tone) (s : TextStyle) : TextStyle :=
  if tone = .playful then
    { s with fontFamily := some "Comic Sans MS", color := some "#ff6b6b" }
  else if tone = .professional then
    { s with fontFamily := some "Arial", fontWeight := some "600" }
  else s

/-- Audience block of `generateOptimalStyle` (`baseStyle.fontSize || 24`
models the truthiness fallback). -/
def styleAudience (audience : Audience) (s : TextStyle) : TextStyle :=
  if audience = .elderly then
    let fallback : ℚ := match s.fontSize with
      | some fs => if fs ≠ 0 then fs else 24
      | none => 24
    { s with fontSize := some (max fallback 32), fontWeight := some "bold" }
  else if audience = .youth then
    { s with fontFamily := some "Arial", color := some "#4ecdc4" }
  else s

/-- Stateful model of `generateOptimalStyle`: the returned style is the
preset object itself, mutated in place, so the updated preset store is
returned alongside. -/
def generateOptimalStyleSt (contentAnalysis : ContentAnalysis)
    (mediaContext : MediaContext) (ps : PresetTextStyles) :
    TextStyle × PresetTextStyles :=
  let baseStyle := stylePresetFor ps contentAnalysis.contentType
  let baseStyle := styleScaleFont contentAnalysis.textLength baseStyle
  let baseStyle := styleBrightness mediaContext.brightness baseStyle
  let baseStyle := styleImportance contentAnalysis.importanceLevel baseStyle
  let baseStyle := styleTone contentAnalysis.tone baseStyle
  let baseStyle := styleAudience contentAnalysis.audience baseStyle
  (baseStyle, writePresetFor ps contentAnalysis.contentType baseStyle)

/-- `generateOptimalStyle` as called on the pristine module state. -/
def generateOptimalStyle (contentAnalysis : ContentAnalysis)
    (mediaContext : MediaContext) : TextStyle :=
  (generateOptimalStyleSt contentAnalysis mediaContext PRESET_TEXT_STYLES).1

-- ============================================================
-- Overlay generation (ai-text-overlay-generator.ts)
-- ============================================================

/-- The custom options passed by the callers on the verified paths
(`generateMultipleTextOverlays` and the social-media agent): both keys are
always present, possibly with `undefined` values, and `Object.assign`
copies them over the analysis fields verbatim. -/
structure CustomOptions where
  contentType : Option ContentType
  importanceLevel : Option Importance
  deriving DecidableEq, Repr

/-- Result record of `generateTextOverlay`. -/
structure GeneratedOverlay where
  text : List Char
  placement : TextPlacement
  style : TextStyle
  analysis : ContentAnalysis
  deriving DecidableEq, Repr

/-- Stateful model of `generateTextOverlay` (validation only logs warnings
in the source and does not influence the result; the brand-guideline
branch is never taken on the verified call sites, which never pass
`brandGuidelines`). -/
def generateTextOverlaySt (text : List Char) (mediaContext : MediaContext)
    (customOptions : Option CustomOptions) (ps : PresetTextStyles) :
    GeneratedOverlay × PresetTextStyles :=
  let contentAnalysis := analyzeTextContent text
  let contentAnalysis :=
    match customOptions with
    | some o => { contentAnalysis with contentType := o.contentType
                                       importanceLevel := o.importanceLevel }
    | none => contentAnalysis
  let placement := generateOptimalPlacement contentAnalysis mediaContext
  let styleRes := generateOptimalStyleSt contentAnalysis mediaContext ps
  ({ text := text, placement := placement, style := styleRes.1
     analysis := contentAnalysis }, styleRes.2)

/-- `adjustPlacementForMultipleOverlays` of the source (`totalCount` is an
unused parameter there too). -/
def adjustPlacementForMultipleOverlays (placement : TextPlacement)
    (index : ℕ) (totalCount : ℕ) : TextPlacement :=
  if placement.position.isNone then placement
  else
    let _ := totalCount
    let ox : ℚ := (((index % 3 : ℕ) : ℚ) - 1) * 20
    let oy : ℚ := ((index / 3 : ℕ) : ℚ) * 30
    { placement with
      offset := some { x := some (((placement.offset.bind PixelOffset.x).getD 0) + ox)
                       y := some (((placement.offset.bind PixelOffset.y).getD 0) + oy) } }

/-- A text segment handed to `generateMultipleTextOverlays`. -/
structure TextSegment where
  text : List Char
  type : Option ContentType := none
  importanceLevel : Option Importance := none
  deriving DecidableEq, Repr

/-- Indexed worker of `generateMultipleTextOverlays` (the `.map` with
index), threading the mutable preset store. -/
def generateMultipleGo (mediaContext : MediaContext) (total : ℕ) :
    List TextSegment → ℕ → PresetTextStyles → List GeneratedOverlay × PresetTextStyles
  | [], _, st => ([], st)
  | seg :: tl, idx, st =>
    let res := generateTextOverlaySt seg.text mediaContext
      (some { contentType := seg.type, importanceLevel := seg.importanceLevel }) st
    let ov :=
      if 1 < total then
        { res.1 with placement := adjustPlacementForMultipleOverlays res.1.placement idx total }
      else res.1
    let rest := generateMultipleGo mediaContext total tl (idx + 1) res.2
    (ov :: rest.1, rest.2)

/-- Stateful model of `generateMultipleTextOverlays`. -/
def generateMultipleTextOverlaysSt (textSegments : List TextSegment)
    (mediaContext : MediaContext) (ps : PresetTextStyles) :
    List GeneratedOverlay × PresetTextStyles :=
  generateMultipleGo mediaContext textSegments.length textSegments 0 ps

-- ============================================================
-- Social media agent: data model (src/unnamed/part_005)
-- ============================================================

/-- The `SocialPlatform` union of the source. -/
inductive SocialPlatform where
  | tiktok | instagram | youtube | twitter | facebook
  deriving DecidableEq, Repr

/-- Engagement counters of `SocialMediaContent`. -/
structure Engagement where
  likes : ℚ
  shares : ℚ
  comments : ℚ
  views : ℚ
  deriving DecidableEq, Repr

/-- `SocialMediaContent` of the source.  `type` is kept as a string (the
runtime passes it through string comparisons and even into the media
context); the upload date plays no role in any computation. -/
structure SocialMediaContent where
  id : String
  type : String
  category : String
  title : String
  description : String
  tags : List String
  contentUrl : String
  thumbnailUrl : Option String := none
  duration : Option ℚ := none
  dimensions : Dimensions
  uploadDate : ℚ := 0
  engagement : Option Engagement := none
  deriving DecidableEq, Repr

/-- The analysis record returned by `analyzeContent` (an anonymous object
in the source).  `bestPlatforms` is a string list because the source's
graphic branch contains the literal `'linkedin'`, which is outside the
`SocialPlatform` union. -/
structure PlatformContentAnalysis where
  category : String
  targetAudience : List String
  bestPlatforms : List String
  trendingScore : ℚ
  suggestedHashtags : List String
  deriving DecidableEq, Repr

-- ============================================================
-- Social media agent: analysis tables (src/unnamed/part_005)
-- ============================================================

/-- `analyzeVideoCategory` of the source. -/
def analyzeVideoCategory (category : String) : String :=
  if category = "subway-surfers" then "gaming-entertainment"
  else if category = "minecraft" then "gaming-educational"
  else if category = "brainrot" then "viral-entertainment"
  else if category = "gaming" then "gaming-content"
  else if category = "entertainment" then "viral-entertainment"
  else "general-entertainment"

/-- `getVideoTargetAudience` of the source. -/
def getVideoTargetAudience (category : String) : List String :=
  if category = "subway-surfers" then ["gen-z", "mobile-gamers", "casual-gamers"]
  else if category = "minecraft" then ["gen-z", "millennials", "gaming-community", "educational"]
  else if category = "brainrot" then ["gen-z", "viral-content", "entertainment"]
  else if category = "gaming" then ["gamers", "gen-z", "millennials"]
  else if category = "entertainment" then ["general", "entertainment", "viral-content"]
  else ["general"]

/-- `getVideoBestPlatforms` of the source. -/
def getVideoBestPlatforms (category : String) : List String :=
  if category = "subway-surfers" then ["tiktok", "instagram", "youtube"]
  else if category = "minecraft" then ["youtube", "tiktok", "instagram"]
  else if category = "brainrot" then ["tiktok", "instagram", "twitter"]
  else if category = "gaming" then ["youtube", "tiktok", "instagram"]
  else if category = "entertainment" then ["tiktok", "instagram", "youtube"]
  else ["tiktok", "instagram"]

/-- `calculateVideoTrendingScore` of the source. -/
def calculateVideoTrendingScore (content : SocialMediaContent) : ℚ :=
  let score : ℚ := 50
  let score := score +
    (if content.category = "subway-surfers" then 30
     else if content.category = "minecraft" then 25
     else if content.category = "brainrot" then 35
     else 0)
  let score :=
    match content.engagement with
    | some e => score + min (e.views / 1000) 20 + min (e.likes / 100) 15
    | none => score
  min score 100

/-- `calculateMemeTrendingScore` of the source. -/
def calculateMemeTrendingScore (content : SocialMediaContent) : ℚ :=
  let score : ℚ := 60
  let score :=
    match content.engagement with
    | some e => score + min (e.shares / 50) 25 + min (e.comments / 20) 15
    | none => score
  min score 100

/-- `calculateGraphicTrendingScore` of the source. -/
def calculateGraphicTrendingScore (content : SocialMediaContent) : ℚ :=
  let score : ℚ := 40
  let score :=
    match content.engagement with
    | some e => score + min (e.likes / 100) 20 + min (e.shares / 30) 20
    | none => score
  min score 100

/-- `generateVideoHashtags` of the source. -/
def generateVideoHashtags (category : String) : List String :=
  ["viral", "trending", "fyp", "foryou"] ++
  (if category = "subway-surfers" then
    ["subwaysurfers", "gaming", "mobilegame", "speedrun", "gamingviral"]
   else if category = "minecraft" then
    ["minecraft", "gaming", "minecraftbuilds", "gamingcommunity", "minecraftviral"]
   else if category = "brainrot" then
    ["brainrot", "viral", "funny", "entertainment", "trending"]
   else if category = "gaming" then
    ["gaming", "gamer", "videogames", "gamingcommunity", "gamingviral"]
   else if category = "entertainment" then
    ["entertainment", "funny", "viral", "trending", "fyp"]
   else ["viral", "trending"])

/-- `generateMemeHashtags` of the source. -/
def generateMemeHashtags (category : String) : List String :=
  ["meme", "funny", "viral", "trending", "fyp"] ++
  (if category = "dank-memes" then ["dankmemes", "memes", "funny", "viral"]
   else if category = "viral-meme" then ["viral", "trending", "funny", "meme"]
   else if category = "classic-meme" then ["classic", "meme", "nostalgia", "funny"]
   else ["meme", "funny"])

/-- `generateGraphicHashtags` of the source. -/
def generateGraphicHashtags (category : String) : List String :=
  ["design", "graphic", "creative", "art"] ++
  (if category = "brand-graphic" then ["brand", "design", "marketing", "business"]
   else if category = "color-graphic" then ["color", "design", "creative", "art"]
   else if category = "minimal-graphic" then ["minimal", "design", "clean", "modern"]
   else ["design", "creative"])

/-- `analyzeContent` of the source (a `switch` over the media kind with no
default branch: other kinds keep the zero-initialised record). -/
def analyzeContent (content : SocialMediaContent) : PlatformContentAnalysis :=
  if content.type = "video" then
    { category := analyzeVideoCategory content.category
      targetAudience := getVideoTargetAudience content.category
      bestPlatforms := getVideoBestPlatforms content.category
      trendingScore := calculateVideoTrendingScore content
      suggestedHashtags := generateVideoHashtags content.category }
  else if content.type = "meme" then
    { category := "viral-meme"
      targetAudience := ["gen-z", "millennials", "internet-culture"]
      bestPlatforms := ["instagram", "twitter", "tiktok"]
      trendingScore := calculateMemeTrendingScore content
      suggestedHashtags := generateMemeHashtags content.category }
  else if content.type = "graphic" then
    { category := "brand-graphic"
      targetAudience := ["general", "business", "professional"]
      bestPlatforms := ["instagram", "facebook", "linkedin"]
      trendingScore := calculateGraphicTrendingScore content
      suggestedHashtags := generateGraphicHashtags content.category }
  else
    { category := "", targetAudience := [], bestPlatforms := []
      trendingScore := 0, suggestedHashtags := [] }

-- ============================================================
-- Social media agent: overlays, captions, posts (part_005)
-- ============================================================

/-- One overlay triple of a social media post. -/
structure PostOverlay where
  text : List Char
  placement : TextPlacement
  style : TextStyle
  deriving DecidableEq, Repr

/-- `SocialMediaPost` of the source (the optional analytics block is never
populated by the generator). -/
structure SocialMediaPost where
  id : String
  contentId : String
  platform : SocialPlatform
  textOverlays : List PostOverlay
  caption : String
  hashtags : List String
  scheduledTime : Option ℚ := none
  status : String
  deriving DecidableEq, Repr

/-- Oracle inputs standing for `Math.random()` template draws,
`Date.now()` and the random identifier suffix. -/
structure RandChoices where
  overlayPick : ℕ := 0
  basePick : ℕ := 0
  platformPick : ℕ := 0
  nowMs : ℚ := 0
  idSuffix : String := ""
  jitterMs : ℚ := 0
  deriving DecidableEq, Repr

/-- `templates[Math.floor(Math.random() * templates.length)]` with the
random draw replaced by an arbitrary natural number oracle. -/
def pickTemplate (templates : List String) (pick : ℕ) : String :=
  templates.getD (pick % templates.length) ""

/-- `generateVideoTitle` of the source. -/
def generateVideoTitle (category : String) (pick : ℕ) : String :=
  let templates :=
    if category = "subway-surfers" then
      ["SUBWAY SURFERS SPEEDRUN! 🏃‍♂️", "INSANE SUBWAY SURFERS SCORE! 🔥",
       "SUBWAY SURFERS WORLD RECORD! 🏆", "SUBWAY SURFERS FAIL COMPILATION! 😂",
       "SUBWAY SURFERS PRO TIPS! 💡"]
    else if category = "minecraft" then
      ["MINECRAFT BUILD TUTORIAL! 🏗️", "MINECRAFT SURVIVAL MODE! ⚔️",
       "MINECRAFT REDSTONE HACKS! 🔴", "MINECRAFT PVP BATTLE! ⚔️",
       "MINECRAFT CREATIVE BUILD! 🎨"]
    else if category = "brainrot" then
      ["BRAINROT COMPILATION! 🧠", "VIRAL BRAINROT CONTENT! 🔥", "BRAINROT MOMENTS! 😵",
       "BRAINROT TRENDING! 📈", "BRAINROT GOLD! 🏆"]
    else ["VIRAL CONTENT! 🔥"]
  pickTemplate templates pick

/-- `generateMemeText` of the source. -/
def generateMemeText (category : String) (pick : ℕ) : String :=
  let templates :=
    if category = "dank-memes" then
      ["WHEN YOU FINALLY GET IT", "ME VS THE GUY SHE TOLD ME NOT TO WORRY ABOUT",
       "NOBODY: \nABSOLUTELY NOBODY: \nME:", "POV: YOU JUST REALIZED", "THAT MOMENT WHEN"]
    else if category = "viral-meme" then
      ["VIRAL MOMENT! 🔥", "THIS IS GOLD! 💯", "CAN\u0027T STOP LAUGHING! 😂",
       "RELATABLE CONTENT! 👏", "MOOD! 😭"]
    else if category = "classic-meme" then
      ["CLASSIC! 👑", "NOSTALGIA HITS! 🎯", "GOOD OLD TIMES! ⏰", "THROWBACK! 📼",
       "LEGENDARY! 🏆"]
    else ["VIRAL MEME! 🔥"]
  pickTemplate templates pick

/-- `generateBrandText` of the source. -/
def generateBrandText (category : String) (pick : ℕ) : String :=
  let templates :=
    if category = "brand-graphic" then
      ["BRAND NEW! 🆕", "EXCLUSIVE OFFER! 💎", "LIMITED TIME! ⏰", "SPECIAL DEAL! 🎯",
       "PREMIUM QUALITY! ✨"]
    else if category = "color-graphic" then
      ["BOLD COLORS! 🎨", "VIBRANT DESIGN! 🌈", "COLOR POP! 💥", "STUNNING VISUALS! 👀",
       "ARTISTIC VIBES! 🎭"]
    else if category = "minimal-graphic" then
      ["CLEAN DESIGN! ✨", "MINIMAL VIBES! 🧘‍♀️", "SIMPLE ELEGANCE! 💫", "MODERN LOOK! 🔥",
       "SOPHISTICATED! 👔"]
    else ["AMAZING DESIGN! ✨"]
  pickTemplate templates pick

/-- `generateVideoOverlays` of the source (stateful because the title
overlay goes through `generateTextOverlay`, and the fixed call-to-action
overlays spread the current — possibly mutated — preset styles). -/
def generateVideoOverlaysSt (content : SocialMediaContent) (platform : SocialPlatform)
    (mediaContext : MediaContext) (pick : ℕ) (ps : PresetTextStyles) :
    List PostOverlay × PresetTextStyles :=
  let titleText := generateVideoTitle content.category pick
  let res := generateTextOverlaySt titleText.data mediaContext
    (some { contentType := some .title, importanceLevel := some .high }) ps
  let overlays : List PostOverlay :=
    [{ text := res.1.text, placement := res.1.placement, style := res.1.style }]
  let overlays :=
    if platform = .tiktok then
      overlays ++
      [{ text := "🔥 FOLLOW FOR MORE 🔥".data
         placement := { position := some .bottomCenter, offset := some { y := some (-10) } }
         style := { res.2.callout with fontSize := some 18, opacity := some (9/10) } }]
    else if platform = .instagram then
      overlays ++
      [{ text := "Double tap ❤️".data
         placement := { position := some .bottomLeft
                        offset := some { x := some 10, y := some (-10) } }
         style := { res.2.caption with fontSize := some 16, opacity := some (8/10) } }]
    else overlays
  (overlays, res.2)

/-- `generateMemeOverlays` of the source. -/
def generateMemeOverlaysSt (content : SocialMediaContent) (_platform : SocialPlatform)
    (mediaContext : MediaContext) (pick : ℕ) (ps : PresetTextStyles) :
    List PostOverlay × PresetTextStyles :=
  let memeText := generateMemeText content.category pick
  let res := generateTextOverlaySt memeText.data mediaContext
    (some { contentType := some .callout, importanceLevel := some .high }) ps
  ([{ text := res.1.text, placement := res.1.placement
      style := { res.1.style with fontFamily := some "Impact"
                                  stroke := some ⟨"#000000", 3⟩ } },
    { text := "🔥 VIRAL 🔥".data
      placement := { position := some .topRight
                     offset := some { x := some (-10), y := some 10 } }
      style := { res.2.callout with fontSize := some 16, opacity := some (9/10) } }],
   res.2)

/-- `generateGraphicOverlays` of the source. -/
def generateGraphicOverlaysSt (content : SocialMediaContent) (_platform : SocialPlatform)
    (mediaContext : MediaContext) (pick : ℕ) (ps : PresetTextStyles) :
    List PostOverlay × PresetTextStyles :=
  let brandText := generateBrandText content.category pick
  let res := generateTextOverlaySt brandText.data mediaContext
    (some { contentType := some .title, importanceLevel := some .high }) ps
  ([{ text := res.1.text, placement := res.1.placement, style := res.1.style },
    { text := "SHARE THIS! 📱".data
      placement := { position := some .bottomCenter, offset := some { y := some (-10) } }
      style := { res.2.callout with fontSize := some 18, opacity := some (9/10) } }],
   res.2)

/-- `generateSocialMediaOverlays` of the source. -/
def generateSocialMediaOverlaysSt (content : SocialMediaContent)
    (platform : SocialPlatform) (pick : ℕ) (ps : PresetTextStyles) :
    List PostOverlay × PresetTextStyles :=
  let mediaContext := analyzeMediaContext content.dimensions content.type content.duration
  if content.type = "video" then
    generateVideoOverlaysSt content platform mediaContext pick ps
  else if content.type = "meme" then
    generateMemeOverlaysSt content platform mediaContext pick ps
  else if content.type = "graphic" then
    generateGraphicOverlaysSt content platform mediaContext pick ps
  else ([], ps)

/-- `generateBaseCaption` of the source. -/
def generateBaseCaption (content : SocialMediaContent) (pick : ℕ) : String :=
  let templates :=
    if content.category = "subway-surfers" then
      ["🚇 Just broke my personal best in Subway Surfers! Can you beat this score?",
       "🏃‍♂️ Subway Surfers is getting intense! Who else is addicted?",
       "🔥 Another day, another Subway Surfers record! This game never gets old!",
       "⚡ Speed running through the subway like a pro! Subway Surfers is life!",
       "🎮 Subway Surfers challenge: Can you survive longer than me?"]
    else if content.category = "minecraft" then
      ["⛏️ Building something epic in Minecraft! This game is pure creativity!",
       "🏗️ Minecraft survival mode is the best! Who else loves this game?",
       "🔴 Redstone engineering at its finest! Minecraft never ceases to amaze!",
       "⚔️ PVP battles in Minecraft are intense! The competition is real!",
       "🎨 Creative mode in Minecraft is where magic happens!"]
    else if content.category = "brainrot" then
      ["🧠 This brainrot content is too good! Can\u0027t stop watching!",
       "😵 The level of brainrot is unreal! This is peak entertainment!",
       "🔥 Viral brainrot moment! You won\u0027t believe what happens next!",
       "📈 This is trending for a reason! Brainrot content is the future!",
       "🏆 This brainrot compilation is pure gold!"]
    else
      ["🔥 Amazing content that you need to see!",
       "💯 This is absolutely incredible!",
       "👀 You won\u0027t believe what happens in this video!",
       "🎯 This content is pure fire!",
       "✨ Something special just for you!"]
  pickTemplate templates pick

/-- `generatePlatformCaption` of the source. -/
def generatePlatformCaption (platform : SocialPlatform) (pick : ℕ) : String :=
  let templates :=
    match platform with
    | .tiktok =>
      ["🎵 Sound on for the full experience!", "💃 Don\u0027t forget to follow for more!",
       "🔥 This is going viral!", "📱 Double tap if you love this!",
       "🎯 FYP material right here!"]
    | .instagram =>
      ["📸 Double tap to show some love! ❤️", "🔥 This is Instagram worthy!",
       "💫 Follow for daily content!", "📱 Share with your friends!",
       "🎯 This is pure Instagram gold!"]
    | .youtube =>
      ["🎥 Subscribe for more content like this!", "🔔 Hit the bell for notifications!",
       "👍 Like and share if you enjoyed!", "💬 Comment your thoughts below!",
       "📺 This is YouTube worthy content!"]
    | .twitter =>
      ["🐦 Retweet if you agree!", "🔥 This is Twitter gold!", "💯 Facts!",
       "📱 Follow for more!", "🎯 This tweet is going viral!"]
    | .facebook =>
      ["👍 Like and share if you love this!", "📘 Follow our page for more!",
       "🔥 This is Facebook worthy!", "💬 Comment what you think!",
       "📱 Share with your friends!"]
  pickTemplate templates pick

/-- `generateSocialMediaCaption` of the source. -/
def generateSocialMediaCaption (content : SocialMediaContent)
    (platform : SocialPlatform) (hashtags : List String)
    (basePick platformPick : ℕ) : String :=
  let baseCaption := generateBaseCaption content basePick
  let platformCaption := generatePlatformCaption platform platformPick
  let hashtagString := String.intercalate " " (hashtags.map (fun tag => "#" ++ tag))
  baseCaption ++ "\n\n" ++ platformCaption ++ "\n\n" ++ hashtagString

/-- `generateSocialMediaPost` of the source, with time and randomness
supplied by the oracle. -/
def generateSocialMediaPostSt (content : SocialMediaContent)
    (platform : SocialPlatform) (r : RandChoices) (ps : PresetTextStyles) :
    SocialMediaPost × PresetTextStyles :=
  let analysis := analyzeContent content
  let ovRes := generateSocialMediaOverlaysSt content platform r.overlayPick ps
  let hashtags := analysis.suggestedHashtags
  let caption := generateSocialMediaCaption content platform hashtags r.basePick r.platformPick
  ({ id := "post_" ++ r.idSuffix
     contentId := content.id
     platform := platform
     textOverlays := ovRes.1
     caption := caption
     hashtags := hashtags
     scheduledTime := some (r.nowMs + r.jitterMs)
     status := "draft" }, ovRes.2)

-- ============================================================
-- Helper lemmas about the style pipeline
-- ============================================================

/-- Every preset reachable from the `switch` in `generateOptimalStyle`
carries a font size in `[16, 60]` in the pristine preset store. -/
theorem stylePresetFor_fontSize_bounds (ct : Option ContentType) :
    ∃ b : ℚ, (stylePresetFor PRESET_TEXT_STYLES ct).fontSize = some b ∧ 16 ≤ b ∧ b ≤ 60 := by
  rcases ct with - | c
  · exact ⟨24, rfl, by norm_num, by norm_num⟩
  · cases c
    case title => exact ⟨48, rfl, by norm_num, by norm_num⟩
    case subtitle => exact ⟨32, rfl, by norm_num, by norm_num⟩
    case watermark => exact ⟨20, rfl, by norm_num, by norm_num⟩
    case callout => exact ⟨28, rfl, by norm_num, by norm_num⟩
    all_goals exact ⟨24, rfl, by norm_num, by norm_num⟩

/-- Length-based scaling keeps a font size from `[16, 60]` inside `[16, 72]`. -/
theorem styleScaleFont_fontSize_bounds (tl : TextLength) (s : TextStyle) (b : ℚ)
    (hb : s.fontSize = some b) (hlo : 16 ≤ b) (hhi : b ≤ 60) :
    ∃ v : ℚ, (styleScaleFont tl s).fontSize = some v ∧ 16 ≤ v ∧ v ≤ 72 := by
  have hne : b ≠ 0 := by intro h; rw [h] at hlo; norm_num at hlo
  cases tl
  case short =>
    refine ⟨min (b * (12/10)) 72, ?_, ?_, min_le_right _ _⟩
    · simp [styleScaleFont, hb, hne]
    · exact le_min (by linarith) (by norm_num)
  case medium => exact ⟨b, by simp [styleScaleFont, hb], hlo, by linarith⟩
  case long =>
    refine ⟨max (b * (8/10)) 16, ?_, le_max_right _ _, ?_⟩
    · simp [styleScaleFont, hb, hne]
    · exact max_le (by linarith) (by norm_num)

/-- The brightness block never touches the font size. -/
theorem styleBrightness_fontSize (br : Brightness) (s : TextStyle) :
    (styleBrightness br s).fontSize = s.fontSize := by
  cases br <;> rfl

/-- The importance block never touches the font size. -/
theorem styleImportance_fontSize (imp : Option Importance) (s : TextStyle) :
    (styleImportance imp s).fontSize = s.fontSize := by
  rcases imp with - | i
  · rfl
  · cases i <;> rfl

/-- The tone block never touches the font size. -/
theorem styleTone_fontSize (tone : Tone) (s : TextStyle) :
    (styleTone tone s).fontSize = s.fontSize := by
  cases tone <;> rfl

/-- The audience block keeps a font size from `[16, 72]` inside `[16, 72]`
(the elderly rule raises it to at least 32). -/
theorem styleAudience_fontSize_bounds (aud : Audience) (s : TextStyle) (v : ℚ)
    (hv : s.fontSize = some v) (hlo : 16 ≤ v) (hhi : v ≤ 72) :
    ∃ w : ℚ, (styleAudience aud s).fontSize = some w ∧ 16 ≤ w ∧ w ≤ 72 := by
  have hne : v ≠ 0 := by intro h; rw [h] at hlo; norm_num at hlo
  cases aud
  case elderly =>
    refine ⟨max v 32, ?_, le_trans (by norm_num) (le_max_right _ _), max_le hhi (by norm_num)⟩
    simp [styleAudience, hv, hne]
  case youth => exact ⟨v, by simp [styleAudience, hv], hlo, hhi⟩
  all_goals exact ⟨v, by simp [styleAudience, hv], hlo, hhi⟩

-- ============================================================
-- C4
-- ============================================================

/-- Claim C4: for every analysis with critical importance and every media
context, `generateOptimalPlacement` places the text at `center`; neither
the content-type base position nor the ultrawide adjustment displaces the
critical override (the timed video wrapper keeps the same position). -/
theorem C4_critical_placement_is_center (contentAnalysis : ContentAnalysis)
    (mediaContext : MediaContext)
    (h : contentAnalysis.importanceLevel = some Importance.critical) :
    (generateOptimalPlacement contentAnalysis mediaContext).position
      = some TextPosition.center := by
  unfold generateOptimalPlacement
  simp only [h, eq_self_iff_true, if_true]
  have hne : ¬(mediaContext.aspectRatio = AspectRatio.ultrawide
      ∧ TextPosition.center = TextPosition.topCenter) := by
    rintro ⟨-, hcontr⟩; exact absurd hcontr (by decide)
  rw [if_neg hne]
  split
  · split <;> rfl
  · rfl

-- ============================================================
-- C6
-- ============================================================

/-- Claim C6: `validateTextPlacement` reports invalid exactly when at
least one of the six conditions holds (position together with gravity, a
coordinate outside `[0,100]`, a negative time, or start ≥ end); the
concrete examples `{startTime := 5, endTime := 2}` and
`createPlacementFromPosition center` behave as the spec states, and the
result is always a total structured record. -/
theorem ite_singleton_eq_nil_iff {α : Type} {c : Prop} [Decidable c] (m : α) :
    ((if c then [m] else []) = ([] : List α)) ↔ ¬c := by
  split <;> simp_all

theorem C6_validateTextPlacement_characterisation :
    (∀ placement : TextPlacement,
      ((validateTextPlacement placement).isValid = false ↔
        ((placement.position.isSome = true ∧ placement.gravity.isSome = true)
         ∨ (∃ xv, placement.x = some xv ∧ (xv < 0 ∨ xv > 100))
         ∨ (∃ yv, placement.y = some yv ∧ (yv < 0 ∨ yv > 100))
         ∨ (∃ s, placement.startTime = some s ∧ s < 0)
         ∨ (∃ e, placement.endTime = some e ∧ e < 0)
         ∨ (∃ s e, placement.startTime = some s ∧ placement.endTime = some e ∧ s ≥ e))))
    ∧ (validateTextPlacement { startTime := some 5, endTime := some 2 }).isValid = false
    ∧ validateTextPlacement (createPlacementFromPosition TextPosition.center)
        = { isValid := true, errors := [] } := by
  refine ⟨?_, by norm_num [validateTextPlacement], by norm_num [validateTextPlacement,
    createPlacementFromPosition]⟩
  intro p
  obtain ⟨xo, yo, po, go, oo, so, eo⟩ := p
  rcases xo with - | xv <;> rcases yo with - | yv <;>
    rcases so with - | sv <;> rcases eo with - | ev <;>
    simp only [validateTextPlacement, beq_eq_false_iff_ne, ne_eq, List.length_eq_zero,
      List.append_eq_nil, ite_singleton_eq_nil_iff, Bool.and_eq_true,
      Option.some.injEq, reduceCtorEq, false_and, exists_false, exists_eq_left',
      eq_self_iff_true, true_and, exists_and_left, or_false, false_or, not_true, not_false_iff,
      and_true] <;>
    tauto

/-- Witness for C4 at a concrete critical analysis on an ultrawide video. -/
theorem C4_critical_placement_is_center_witness :
    ({ contentType := some .title, textLength := .short, tone := .formal
       importanceLevel := some Importance.critical, audience := .general
       context := "image", colorScheme := "light" } : ContentAnalysis).importanceLevel
        = some Importance.critical
    ∧ (generateOptimalPlacement
        { contentType := some .title, textLength := .short, tone := .formal
          importanceLevel := some Importance.critical, audience := .general
          context := "image", colorScheme := "light" }
        { type := "video", dimensions := ⟨2560, 1080⟩, aspectRatio := .ultrawide
          backgroundComplexity := "moderate", dominantColors := ["#ffffff"]
          brightness := .medium, duration := some 30 }).position
        = some TextPosition.center :=
  ⟨rfl, C4_critical_placement_is_center _ _ rfl⟩

-- ============================================================
-- C5
-- ============================================================

/-- Claim C5: for every analysis and media context, the font size of the
style produced by `generateOptimalStyle` (from the pristine presets) lies
in the closed interval `[16, 72]`, across all presets, length buckets
and importance/tone/audience adjustments. -/
theorem C5_fontSize_within_16_72 (contentAnalysis : ContentAnalysis)
    (mediaContext : MediaContext) :
    ∃ v : ℚ, (generateOptimalStyle contentAnalysis mediaContext).fontSize = some v
      ∧ 16 ≤ v ∧ v ≤ 72 := by
  obtain ⟨b, hb, hb1, hb2⟩ := stylePresetFor_fontSize_bounds contentAnalysis.contentType
  obtain ⟨v, hv, hv1, hv2⟩ :=
    styleScaleFont_fontSize_bounds contentAnalysis.textLength _ b hb hb1 hb2
  have hmid : (styleTone contentAnalysis.tone
      (styleImportance contentAnalysis.importanceLevel
        (styleBrightness mediaContext.brightness
          (styleScaleFont contentAnalysis.textLength
            (stylePresetFor PRESET_TEXT_STYLES contentAnalysis.contentType))))).fontSize
      = some v := by
    rw [styleTone_fontSize, styleImportance_fontSize, styleBrightness_fontSize, hv]
  exact styleAudience_fontSize_bounds contentAnalysis.audience _ v hmid hv1 hv2

-- ============================================================
-- C10
-- ============================================================

/-- Claim C10: both validators treat absent optional fields as vacuously
valid: the empty placement and the empty style validate with no errors,
and a field that is absent never contributes an error (with the numeric
and timing fields absent, only the position/gravity conflict check of the
placement validator can fire, and no style check can fire at all). -/
theorem C10_validators_vacuous_on_absent_fields :
    validateTextPlacement {} = { isValid := true, errors := [] }
    ∧ validateTextStyle {} = { isValid := true, errors := [] }
    ∧ (∀ placement : TextPlacement,
        (validateTextPlacement
          { placement with x := none, y := none, startTime := none, endTime := none }).errors
          = if placement.position.isSome && placement.gravity.isSome then
              ["Cannot use both position and gravity - use one or the other"] else [])
    ∧ (∀ style : TextStyle,
        (validateTextStyle
          { style with fontSize := none, opacity := none, stroke := none, shadow := none }).errors
          = []) := by
  refine ⟨by decide, by decide, fun placement => ?_, fun style => rfl⟩
  simp only [validateTextPlacement, List.append_nil]

-- ============================================================
-- C1
-- ============================================================

/-- Counterexample to claim C1: the nine-character text "Watermark"
contains the substring "watermark" case-insensitively, yet
`determineContentType` classifies it as a title, because the source
evaluates the title pattern before the watermark substrings. -/
theorem C1_counterexample_title_beats_watermark :
    includesSub ("Watermark".data.map toLowerChar) "watermark".data = true
    ∧ "Watermark".data.length < 50
    ∧ titlePattern "Watermark".data = true
    ∧ determineContentType "Watermark".data = ContentType.title
    ∧ ContentType.title ≠ ContentType.watermark := by decide

/-- Claim C1 as amended: the watermark check fires only after the title
and subtitle patterns fail.  For every text containing "copyright", "©"
or "watermark" case-insensitively that does not match the
capitalised-single-sentence pattern under 100 characters,
`determineContentType` returns `watermark`. -/
theorem C1_amended_watermark_after_title_checks (text : List Char)
    (hsub : includesSub (text.map toLowerChar) "copyright".data = true
          ∨ includesSub (text.map toLowerChar) "©".data = true
          ∨ includesSub (text.map toLowerChar) "watermark".data = true)
    (hpat : ¬(text.length < 100 ∧ titlePattern text = true)) :
    determineContentType text = ContentType.watermark := by
  have h50 : ¬((decide (text.length < 50) && titlePattern text) = true) := by
    simp only [Bool.and_eq_true, decide_eq_true_eq]
    exact fun ⟨a, b⟩ => hpat ⟨a.trans (by norm_num), b⟩
  have h100 : ¬((decide (text.length < 100) && titlePattern text) = true) := by
    simp only [Bool.and_eq_true, decide_eq_true_eq]
    exact fun ⟨a, b⟩ => hpat ⟨a, b⟩
  have hw : (includesSub (text.map toLowerChar) "©".data
      || includesSub (text.map toLowerChar) "copyright".data
      || includesSub (text.map toLowerChar) "watermark".data) = true := by
    rcases hsub with h | h | h <;> simp [h]
  unfold determineContentType
  rw [if_neg h50, if_neg h100, if_pos hw]

/-- Witness for the amended C1 at the concrete text "© 2024 company.". -/
theorem C1_amended_watermark_after_title_checks_witness :
    (includesSub ("© 2024 company.".data.map toLowerChar) "copyright".data = true
      ∨ includesSub ("© 2024 company.".data.map toLowerChar) "©".data = true
      ∨ includesSub ("© 2024 company.".data.map toLowerChar) "watermark".data = true)
    ∧ ¬("© 2024 company.".data.length < 100 ∧ titlePattern "© 2024 company.".data = true)
    ∧ determineContentType "© 2024 company.".data = ContentType.watermark :=
  ⟨by decide, by decide,
    C1_amended_watermark_after_title_checks _ (by decide) (by decide)⟩

-- ============================================================
-- C2
-- ============================================================

/-- Claim C2 (refuted): `generateOptimalStyle` is NOT referentially
transparent across calls.  The source assigns the shared preset object to
`baseStyle` by reference and mutates it in place, so a second call with
identical arguments reads the mutated preset: with the title preset and a
short text, the first call returns font size 57.6 and the second 69.12. -/
theorem C2_generateOptimalStyle_mutates_presets :
    (generateOptimalStyleSt
        { contentType := some .title, textLength := .short, tone := .formal
          importanceLevel := some .medium, audience := .general
          context := "image", colorScheme := "light" }
        { type := "image", dimensions := ⟨100, 100⟩, aspectRatio := .square
          backgroundComplexity := "moderate", dominantColors := ["#ffffff"]
          brightness := .medium }
        PRESET_TEXT_STYLES).1.fontSize = some (288/5)
    ∧ (generateOptimalStyleSt
        { contentType := some .title, textLength := .short, tone := .formal
          importanceLevel := some .medium, audience := .general
          context := "image", colorScheme := "light" }
        { type := "image", dimensions := ⟨100, 100⟩, aspectRatio := .square
          backgroundComplexity := "moderate", dominantColors := ["#ffffff"]
          brightness := .medium }
        (generateOptimalStyleSt
          { contentType := some .title, textLength := .short, tone := .formal
            importanceLevel := some .medium, audience := .general
            context := "image", colorScheme := "light" }
          { type := "image", dimensions := ⟨100, 100⟩, aspectRatio := .square
            backgroundComplexity := "moderate", dominantColors := ["#ffffff"]
            brightness := .medium }
          PRESET_TEXT_STYLES).2).1.fontSize = some (1728/25)
    ∧ (288/5 : ℚ) ≠ 1728/25 := by
  refine ⟨?_, ?_, by norm_num⟩ <;>
  · simp only [generateOptimalStyleSt, stylePresetFor, styleScaleFont, styleBrightness,
      styleImportance, styleTone, styleAudience, writePresetFor, PRESET_TEXT_STYLES]
    simp [min_def]
    norm_num

-- ============================================================
-- C3
-- ============================================================

/-- The placement component of a generated overlay does not depend on the
preset store (only the style component reads the mutable presets). -/
theorem generateTextOverlaySt_placement_state_irrelevant (text : List Char)
    (mediaContext : MediaContext) (customOptions : Option CustomOptions)
    (ps ps' : PresetTextStyles) :
    (generateTextOverlaySt text mediaContext customOptions ps).1.placement
      = (generateTextOverlaySt text mediaContext customOptions ps').1.placement := rfl

/-- Indexed description of the overlay list built by the worker of
`generateMultipleTextOverlays`: when more than one segment is present,
the overlay at offset `i` carries the stagger-adjusted placement of the
single-overlay generator run on that segment (for any preset store). -/
theorem generateMultipleGo_get_placement (mediaContext : MediaContext) (total : ℕ)
    (h1 : 1 < total) (rest : List TextSegment) :
    ∀ (idx : ℕ) (st st' : PresetTextStyles) (i : ℕ) (seg : TextSegment),
      rest.get? i = some seg →
      (((generateMultipleGo mediaContext total rest idx st).1.get? i).map
          (fun o => o.placement))
        = some (adjustPlacementForMultipleOverlays
            ((generateTextOverlaySt seg.text mediaContext
              (some { contentType := seg.type, importanceLevel := seg.importanceLevel })
              st').1.placement)
            (idx + i) total) := by
  induction rest with
  | nil => intro idx st st' i seg h; simp at h
  | cons s tl ih =>
    intro idx st st' i seg h
    cases i with
    | zero =>
      simp only [List.get?] at h
      cases h
      simp only [generateMultipleGo, if_pos h1, List.get?, Option.map_some']
      rw [Nat.add_zero,
        generateTextOverlaySt_placement_state_irrelevant s.text mediaContext _ st st']
    | succ i =>
      simp only [List.get?] at h
      simp only [generateMultipleGo, List.get?]
      rw [ih (idx + 1) _ st' i seg h]
      have harith : idx + 1 + i = idx + (i + 1) := by omega
      rw [harith]

/-- Counterexample to claim C3: with two segments, the FIRST overlay's
placement is also staggered (x offset −20), so it differs from what the
single-overlay generator produced for that segment. -/
theorem C3_counterexample_first_segment_staggered :
    ((((generateMultipleTextOverlaysSt
          [{ text := "A".data }, { text := "B".data }]
          { type := "image", dimensions := ⟨100, 100⟩, aspectRatio := .square
            backgroundComplexity := "moderate", dominantColors := ["#ffffff"]
            brightness := .medium }
          PRESET_TEXT_STYLES).1.get? 0).map (fun o => o.placement))
        = some { position := some .bottomCenter
                 offset := some { x := some (-20), y := some 0 } })
    ∧ (generateTextOverlaySt "A".data
        { type := "image", dimensions := ⟨100, 100⟩, aspectRatio := .square
          backgroundComplexity := "moderate", dominantColors := ["#ffffff"]
          brightness := .medium }
        (some { contentType := none, importanceLevel := none })
        PRESET_TEXT_STYLES).1.placement
        = { position := some .bottomCenter, offset := none }
    ∧ ({ position := some TextPosition.bottomCenter
         offset := some { x := some (-20), y := some (0 : ℚ) } } : TextPlacement)
        ≠ { position := some .bottomCenter, offset := none } := by
  refine ⟨?_, rfl, by simp⟩
  show (((generateMultipleGo
      { type := "image", dimensions := ⟨100, 100⟩, aspectRatio := .square
        backgroundComplexity := "moderate", dominantColors := ["#ffffff"]
        brightness := .medium } 2
      [{ text := "A".data }, { text := "B".data }] 0 PRESET_TEXT_STYLES).1.get? 0).map
        (fun o => o.placement))
      = some { position := some .bottomCenter
               offset := some { x := some (-20), y := some 0 } }
  rw [generateMultipleGo_get_placement
    { type := "image", dimensions := ⟨100, 100⟩, aspectRatio := .square
      backgroundComplexity := "moderate", dominantColors := ["#ffffff"]
      brightness := .medium } 2 (by norm_num)
    [{ text := "A".data }, { text := "B".data }] 0 PRESET_TEXT_STYLES PRESET_TEXT_STYLES 0
    { text := "A".data } rfl]
  have hp : (generateTextOverlaySt "A".data
      { type := "image", dimensions := ⟨100, 100⟩, aspectRatio := .square
        backgroundComplexity := "moderate", dominantColors := ["#ffffff"]
        brightness := .medium }
      (some { contentType := none, importanceLevel := none })
      PRESET_TEXT_STYLES).1.placement
      = { position := some .bottomCenter, offset := none } := rfl
  norm_num [hp, adjustPlacementForMultipleOverlays]

/-- Claim C3 as amended: with at least two segments the stagger adjustment
applies to EVERY segment including the first: the overlay at index `i`
(0-based) carries the single-overlay placement with an added x offset of
`((i mod 3) - 1) * 20` — cycling −20, 0, +20 — and an added y offset of
`30 * (i / 3)` pixels. -/
theorem C3_amended_stagger_applies_to_all_segments (textSegments : List TextSegment)
    (mediaContext : MediaContext) (ps : PresetTextStyles)
    (h2 : 2 ≤ textSegments.length) (i : ℕ) (seg : TextSegment)
    (hseg : textSegments.get? i = some seg) :
    ((((generateMultipleTextOverlaysSt textSegments mediaContext ps).1.get? i).map
        (fun o => o.placement))
      = some (adjustPlacementForMultipleOverlays
          ((generateTextOverlaySt seg.text mediaContext
            (some { contentType := seg.type, importanceLevel := seg.importanceLevel })
            ps).1.placement)
          i textSegments.length))
    ∧ (∀ placement : TextPlacement, placement.position.isSome = true →
        adjustPlacementForMultipleOverlays placement i textSegments.length
          = { placement with
              offset := some ⟨some ((placement.offset.bind PixelOffset.x).getD 0 +
                                (((i % 3 : ℕ) : ℚ) - 1) * 20),
                              some ((placement.offset.bind PixelOffset.y).getD 0 +
                                ((i / 3 : ℕ) : ℚ) * 30)⟩ }) := by
  constructor
  · have h1 : 1 < textSegments.length := lt_of_lt_of_le (by norm_num) h2
    have := generateMultipleGo_get_placement mediaContext textSegments.length h1
      textSegments 0 ps ps i seg hseg
    rwa [Nat.zero_add] at this
  · intro placement hpos
    rcases hp : placement.position with - | v
    · rw [hp] at hpos; simp at hpos
    · unfold adjustPlacementForMultipleOverlays
      rw [if_neg (by rw [hp]; simp)]
      simp [hp]

/-- Witness for the amended C3 at a concrete two-segment input, index 1. -/
theorem C3_amended_stagger_applies_to_all_segments_witness :
    2 ≤ ([{ text := "A".data }, { text := "B".data }] : List TextSegment).length
    ∧ ([{ text := "A".data }, { text := "B".data }] : List TextSegment).get? 1
        = some { text := "B".data }
    ∧ ((((generateMultipleTextOverlaysSt
            [{ text := "A".data }, { text := "B".data }]
            { type := "image", dimensions := ⟨100, 100⟩, aspectRatio := .square
              backgroundComplexity := "moderate", dominantColors := ["#ffffff"]
              brightness := .medium }
            PRESET_TEXT_STYLES).1.get? 1).map (fun o => o.placement))
        = some (adjustPlacementForMultipleOverlays
            ((generateTextOverlaySt "B".data
              { type := "image", dimensions := ⟨100, 100⟩, aspectRatio := .square
                backgroundComplexity := "moderate", dominantColors := ["#ffffff"]
                brightness := .medium }
              (some { contentType := none, importanceLevel := none })
              PRESET_TEXT_STYLES).1.placement)
            1 2)) :=
  ⟨by norm_num, rfl,
    (C3_amended_stagger_applies_to_all_segments
      [{ text := "A".data }, { text := "B".data }]
      { type := "image", dimensions := ⟨100, 100⟩, aspectRatio := .square
        backgroundComplexity := "moderate", dominantColors := ["#ffffff"]
        brightness := .medium }
      PRESET_TEXT_STYLES (by norm_num) 1 { text := "B".data } rfl).1⟩

-- ============================================================
-- C7 / C8 helper lemmas on trending scores
-- ============================================================

/-- The video trending score lies between its base-plus-category bonus
and 100 when the engagement counters are non-negative. -/
theorem calculateVideoTrendingScore_bounds (content : SocialMediaContent)
    (heng : ∀ e, content.engagement = some e → 0 ≤ e.likes ∧ 0 ≤ e.views) :
    50 ≤ calculateVideoTrendingScore content
    ∧ calculateVideoTrendingScore content ≤ 100
    ∧ (content.category = "subway-surfers" → 80 ≤ calculateVideoTrendingScore content) := by
  unfold calculateVideoTrendingScore
  have hcb : (0 : ℚ) ≤
      (if content.category = "subway-surfers" then (30 : ℚ)
       else if content.category = "minecraft" then 25
       else if content.category = "brainrot" then 35
       else 0) := by
    split_ifs <;> norm_num
  rcases he : content.engagement with - | e
  · refine ⟨le_min (by linarith) (by norm_num), min_le_right _ _, fun hc => ?_⟩
    rw [if_pos hc]
    exact le_min (by norm_num) (by norm_num)
  · obtain ⟨hl, hv⟩ := heng e he
    have hb1 : (0 : ℚ) ≤ min (e.views / 1000) 20 := le_min (by positivity) (by norm_num)
    have hb2 : (0 : ℚ) ≤ min (e.likes / 100) 15 := le_min (by positivity) (by norm_num)
    refine ⟨le_min (by linarith) (by norm_num), min_le_right _ _, fun hc => ?_⟩
    rw [if_pos hc]
    exact le_min (by linarith) (by norm_num)

/-- The meme trending score lies between 60 and 100 for non-negative
engagement counters. -/
theorem calculateMemeTrendingScore_bounds (content : SocialMediaContent)
    (heng : ∀ e, content.engagement = some e → 0 ≤ e.shares ∧ 0 ≤ e.comments) :
    60 ≤ calculateMemeTrendingScore content ∧ calculateMemeTrendingScore content ≤ 100 := by
  unfold calculateMemeTrendingScore
  rcases he : content.engagement with - | e
  · exact ⟨le_min (by norm_num) (by norm_num), min_le_right _ _⟩
  · obtain ⟨hs, hc⟩ := heng e he
    have hb1 : (0 : ℚ) ≤ min (e.shares / 50) 25 := le_min (by positivity) (by norm_num)
    have hb2 : (0 : ℚ) ≤ min (e.comments / 20) 15 := le_min (by positivity) (by norm_num)
    exact ⟨le_min (by linarith) (by norm_num), min_le_right _ _⟩

/-- The graphic trending score lies between 40 and 100 for non-negative
engagement counters. -/
theorem calculateGraphicTrendingScore_bounds (content : SocialMediaContent)
    (heng : ∀ e, content.engagement = some e → 0 ≤ e.likes ∧ 0 ≤ e.shares) :
    40 ≤ calculateGraphicTrendingScore content ∧ calculateGraphicTrendingScore content ≤ 100 := by
  unfold calculateGraphicTrendingScore
  rcases he : content.engagement with - | e
  · exact ⟨le_min (by norm_num) (by norm_num), min_le_right _ _⟩
  · obtain ⟨hl, hs⟩ := heng e he
    have hb1 : (0 : ℚ) ≤ min (e.likes / 100) 20 := le_min (by positivity) (by norm_num)
    have hb2 : (0 : ℚ) ≤ min (e.shares / 30) 20 := le_min (by positivity) (by norm_num)
    exact ⟨le_min (by linarith) (by norm_num), min_le_right _ _⟩

-- ============================================================
-- C7
-- ============================================================

/-- Claim C7: for every content of kind video, meme or graphic with
non-negative engagement counters (or none), the trending score returned
by `analyzeContent` lies in `[0, 100]` and never falls below the per-kind
base score (50, 60 and 40 respectively). -/
theorem C7_trendingScore_clamped (content : SocialMediaContent)
    (hkind : content.type = "video" ∨ content.type = "meme" ∨ content.type = "graphic")
    (heng : ∀ e, content.engagement = some e →
      0 ≤ e.likes ∧ 0 ≤ e.shares ∧ 0 ≤ e.comments ∧ 0 ≤ e.views) :
    (0 ≤ (analyzeContent content).trendingScore
      ∧ (analyzeContent content).trendingScore ≤ 100)
    ∧ (content.type = "video" → 50 ≤ (analyzeContent content).trendingScore)
    ∧ (content.type = "meme" → 60 ≤ (analyzeContent content).trendingScore)
    ∧ (content.type = "graphic" → 40 ≤ (analyzeContent content).trendingScore) := by
  rcases hkind with h | h | h <;>
    simp only [analyzeContent, h, reduceCtorEq, if_true, if_false, eq_self_iff_true,
      String.reduceEq, ite_true, ite_false]
  · obtain ⟨h1, h2, -⟩ := calculateVideoTrendingScore_bounds content
      (fun e he => ⟨(heng e he).1, (heng e he).2.2.2⟩)
    exact ⟨⟨by linarith, h2⟩, fun _ => h1, fun hm => hm.elim, fun hg => hg.elim⟩
  · obtain ⟨h1, h2⟩ := calculateMemeTrendingScore_bounds content
      (fun e he => ⟨(heng e he).2.1, (heng e he).2.2.1⟩)
    exact ⟨⟨by linarith, h2⟩, fun hv => hv.elim, fun _ => h1, fun hg => hg.elim⟩
  · obtain ⟨h1, h2⟩ := calculateGraphicTrendingScore_bounds content
      (fun e he => ⟨(heng e he).1, (heng e he).2.1⟩)
    exact ⟨⟨by linarith, h2⟩, fun hv => hv.elim, fun hm => hm.elim, fun _ => h1⟩

/-- Witness for C7 at a concrete meme with ten million views. -/
theorem C7_trendingScore_clamped_witness :
    (({ id := "c1", type := "meme", category := "viral-meme", title := "t"
        description := "d", tags := [], contentUrl := "u"
        dimensions := ⟨1080, 1920⟩
        engagement := some ⟨2000, 5000, 800, 10000000⟩ } : SocialMediaContent).type = "meme"
      ∨ False ∨ False)
    ∧ (0 ≤ (analyzeContent
        { id := "c1", type := "meme", category := "viral-meme", title := "t"
          description := "d", tags := [], contentUrl := "u"
          dimensions := ⟨1080, 1920⟩
          engagement := some ⟨2000, 5000, 800, 10000000⟩ }).trendingScore
      ∧ (analyzeContent
        { id := "c1", type := "meme", category := "viral-meme", title := "t"
          description := "d", tags := [], contentUrl := "u"
          dimensions := ⟨1080, 1920⟩
          engagement := some ⟨2000, 5000, 800, 10000000⟩ }).trendingScore ≤ 100) :=
  ⟨Or.inl rfl,
    (C7_trendingScore_clamped _
      (Or.inr (Or.inl rfl))
      (fun e he => by
        simp only [Option.some.injEq] at he
        subst he
        norm_num)).1⟩

-- ============================================================
-- C8
-- ============================================================

/-- Claim C8: for every video content in category "subway-surfers" with
non-negative engagement counters, `analyzeContent` suggests exactly the
platforms tiktok, instagram, youtube in that order, and the trending
score is at least 80 (base 50 plus the category bonus 30, before the
clamp at 100). -/
theorem C8_subway_surfers_platforms_and_score (content : SocialMediaContent)
    (htype : content.type = "video") (hcat : content.category = "subway-surfers")
    (heng : ∀ e, content.engagement = some e → 0 ≤ e.likes ∧ 0 ≤ e.views) :
    (analyzeContent content).bestPlatforms = ["tiktok", "instagram", "youtube"]
    ∧ 80 ≤ (analyzeContent content).trendingScore := by
  constructor
  · simp [analyzeContent, htype, getVideoBestPlatforms, hcat]
  · simp only [analyzeContent, htype, eq_self_iff_true, if_true, ite_true]
    exact (calculateVideoTrendingScore_bounds content heng).2.2 hcat

/-- Witness for C8 on the spec's end-to-end scenario content. -/
theorem C8_subway_surfers_platforms_and_score_witness :
    (analyzeContent
      { id := "content-1", type := "video", category := "subway-surfers", title := "t"
        description := "d", tags := [], contentUrl := "u", duration := some 30
        dimensions := ⟨1080, 1920⟩ }).bestPlatforms = ["tiktok", "instagram", "youtube"]
    ∧ 80 ≤ (analyzeContent
      { id := "content-1", type := "video", category := "subway-surfers", title := "t"
        description := "d", tags := [], contentUrl := "u", duration := some 30
        dimensions := ⟨1080, 1920⟩ }).trendingScore :=
  C8_subway_surfers_platforms_and_score _ rfl rfl (fun e he => by simp at he)

-- ============================================================
-- C9
-- ============================================================

/-- Claim C9: for every content, platform and outcome of the random
template draws, the post built by `generateSocialMediaPost` carries
exactly the hashtags suggested by `analyzeContent`, and its caption ends
with those same hashtags, each rendered with a leading "#" and joined by single
spaces, after a blank line that follows the platform call-to-action line
(which itself follows the base caption and a blank line). -/
theorem C9_post_hashtags_match_caption (content : SocialMediaContent)
    (platform : SocialPlatform) (r : RandChoices) (ps : PresetTextStyles) :
    ((generateSocialMediaPostSt content platform r ps).1.hashtags
        = (analyzeContent content).suggestedHashtags)
    ∧ ∃ pre : String,
        ((generateSocialMediaPostSt content platform r ps).1.caption
          = pre ++ "\n\n" ++ String.intercalate " "
              (((generateSocialMediaPostSt content platform r ps).1.hashtags).map
                (fun tag => "#" ++ tag)))
        ∧ pre = generateBaseCaption content r.basePick ++ "\n\n"
              ++ generatePlatformCaption platform r.platformPick := by
  refine ⟨rfl, generateBaseCaption content r.basePick ++ "\n\n"
    ++ generatePlatformCaption platform r.platformPick, ?_, rfl⟩
  show generateSocialMediaCaption content platform
      (analyzeContent content).suggestedHashtags r.basePick r.platformPick = _
  unfold generateSocialMediaCaption
  simp only [String.append_assoc]
  rfl
